import Mathlib

/-!
Formal model of the NYC Yellow Taxi dashboard pipeline (`src/app.py`).

Rows of the trips table and of the zone lookup are modelled as records of
nullable columns (`Option`), matching the nullable columns of the Polars
dataframes.  Timestamps are epoch microseconds (`Int`), real-valued columns
are `ℚ`.  Each dataframe operation of `load_data` becomes one function on
lists of rows, in the order of the source; Polars null semantics (Kleene
`&`, null-skipping `map_elements`, null-propagating arithmetic, non-matching
null join keys, `when/then/otherwise` with a null mask) are modelled
explicitly.  The sidebar filter mask, the render cycle and the
download-if-missing helper are modelled below the pipeline.
-/

namespace TaxiDashboard

/-- One row of the trips table: raw parquet columns used by `app.py`, plus the
columns derived in `load_data` (all initially absent). -/
structure Row where
  tpep_pickup_datetime : Option Int := none
  tpep_dropoff_datetime : Option Int := none
  PULocationID : Option Int := none
  DOLocationID : Option Int := none
  fare_amount : Option ℚ := none
  trip_distance : Option ℚ := none
  total_amount : Option ℚ := none
  payment_type : Option Int := none
  trip_duration_minutes : Option ℚ := none
  pickup_hour : Option Int := none
  pickup_day_of_week : Option String := none
  trip_speed_mph : Option ℚ := none
  pickup_zone : Option String := none
  pickup_borough : Option String := none
  dropoff_zone : Option String := none
  dropoff_borough : Option String := none
  payment_label : Option String := none
deriving DecidableEq, Repr

/-- One row of the zone lookup CSV (`taxi_zone_lookup.csv`). -/
structure ZoneRow where
  LocationID : Option Int := none
  Borough : Option String := none
  Zone : Option String := none
  service_zone : Option String := none
deriving DecidableEq, Repr

/-- The fixed payment-code enumeration (`PAYMENT_MAP` in `app.py`). -/
def PAYMENT_MAP : List (Int × String) :=
  [(1, "Credit Card"), (2, "Cash"), (3, "No Charge"), (4, "Dispute"), (5, "Unknown")]

/-- The fixed weekday ordering (`DAY_ORDER` in `app.py`), which is also the
Monday-first list of `%A` weekday names. -/
def DAY_ORDER : List String :=
  ["Monday", "Tuesday", "Wednesday", "Thursday", "Friday", "Saturday", "Sunday"]

/-- Polars comparison `col > lit` on a nullable rational column: null in, null out. -/
def optGtQ (a : Option ℚ) (c : ℚ) : Option Bool :=
  a.map (fun x => decide (c < x))

/-- Polars comparison `col <= lit` on a nullable rational column: null in, null out. -/
def optLeQ (a : Option ℚ) (c : ℚ) : Option Bool :=
  a.map (fun x => decide (x ≤ c))

/-- Polars comparison `colA > colB` on nullable datetime columns. -/
def optGtI (a b : Option Int) : Option Bool :=
  match a, b with
  | some x, some y => some (decide (y < x))
  | _, _ => none

/-- Polars `&` on nullable booleans (Kleene conjunction). -/
def kleeneAnd : Option Bool → Option Bool → Option Bool
  | some false, _ => some false
  | _, some false => some false
  | some true, some true => some true
  | _, _ => none

/-- The `drop_nulls(subset=critical_cols)` predicate of `load_data`: keep a row
only when the five critical columns are all present. -/
def hasCriticalCols (r : Row) : Bool :=
  r.tpep_pickup_datetime.isSome && r.tpep_dropoff_datetime.isSome &&
    r.PULocationID.isSome && r.DOLocationID.isSome && r.fare_amount.isSome

/-- The boolean expression of the `df.filter(...)` call of `load_data`, in
source order: `(trip_distance > 0) & (fare_amount > 0) & (fare_amount <= 500)
& (dropoff > pickup)`. -/
def admissionPred (r : Row) : Option Bool :=
  kleeneAnd
    (kleeneAnd
      (kleeneAnd (optGtQ r.trip_distance 0) (optGtQ r.fare_amount 0))
      (optLeQ r.fare_amount 500))
    (optGtI r.tpep_dropoff_datetime r.tpep_pickup_datetime)

/-- Polars `filter` keeps exactly the rows whose predicate is true (a null
predicate drops the row). -/
def keepRow (r : Row) : Bool :=
  admissionPred r == some true

/-- The cleaning stage of `load_data`: `drop_nulls` on the critical columns,
then the validity filter. -/
def cleaned (trips : List Row) : List Row :=
  (trips.filter hasCriticalCols).filter keepRow

/-- Duration column: `(dropoff - pickup).dt.total_seconds() / 60` on epoch
microseconds.  Polars `dt.total_seconds()` returns whole Int64 seconds, the
microsecond delta divided with truncation toward zero, and the `/ 60` is then
true division; null when either timestamp is null. -/
def durationMinutes (p d : Option Int) : Option ℚ :=
  match p, d with
  | some a, some b => some ((((b - a).tdiv 1000000 : Int) : ℚ) / 60)
  | _, _ => none

/-- Polars `dt.hour()` on an epoch-microsecond instant. -/
def hourOfMicros (t : Int) : Int :=
  (t.fdiv 3600000000).emod 24

/-- The civil day of an epoch-microsecond instant, counted from 1970-01-01. -/
def epochDayOfMicros (t : Int) : Int :=
  t.fdiv 86400000000

/-- Polars `dt.strftime(\x22%A\x22)`: the full weekday name of an instant
(1970-01-01 was a Thursday, index 3 in the Monday-first list). -/
def weekdayName (t : Int) : String :=
  DAY_ORDER.getD ((epochDayOfMicros t + 3).emod 7).toNat ""

/-- The first `with_columns` of `load_data`: derive `trip_duration_minutes`,
`pickup_hour` and `pickup_day_of_week`. -/
def featureStep (r : Row) : Row :=
  { r with
    trip_duration_minutes := durationMinutes r.tpep_pickup_datetime r.tpep_dropoff_datetime
    pickup_hour := r.tpep_pickup_datetime.map hourOfMicros
    pickup_day_of_week := r.tpep_pickup_datetime.map weekdayName }

/-- Polars `when(cond).then(t).otherwise(e)`: a null mask yields null. -/
def plWhen (c : Option Bool) (t e : Option ℚ) : Option ℚ :=
  match c with
  | some true => t
  | some false => e
  | none => none

/-- Polars `/` on nullable rational columns: null propagates. -/
def optDivQ (a b : Option ℚ) : Option ℚ :=
  match a, b with
  | some x, some y => some (x / y)
  | _, _ => none

/-- The second `with_columns` of `load_data`: derive `trip_speed_mph` as
`when(trip_duration_minutes > 0).then(trip_distance / (trip_duration_minutes / 60)).otherwise(None)`. -/
def speedStep (r : Row) : Row :=
  { r with
    trip_speed_mph :=
      plWhen (optGtQ r.trip_duration_minutes 0)
        (optDivQ r.trip_distance (r.trip_duration_minutes.map (fun q => q / 60)))
        none }

/-- The trips table after cleaning and both feature-engineering steps, i.e.
just before the zone joins. -/
def featured (trips : List Row) : List Row :=
  (cleaned trips).map (fun r => speedStep (featureStep r))

/-- Polars join-key equality: null keys match nothing (the default
`join_nulls=False`). -/
def keyMatches (a b : Option Int) : Bool :=
  match a, b with
  | some x, some y => x == y
  | _, _ => false

/-- Write the pickup-side zone columns of a row. -/
def setPU (r : Row) (z b : Option String) : Row :=
  { r with pickup_zone := z, pickup_borough := b }

/-- Write the dropoff-side zone columns of a row. -/
def setDO (r : Row) (z b : Option String) : Row :=
  { r with dropoff_zone := z, dropoff_borough := b }

/-- The rows produced for one left row by the left join on `PULocationID`:
one output row per matching zone row, or a single row with absent zone
columns when nothing matches. -/
def rowsPU (zones : List ZoneRow) (r : Row) : List Row :=
  if (zones.filter (fun z => keyMatches r.PULocationID z.LocationID)).isEmpty then
    [setPU r none none]
  else
    (zones.filter (fun z => keyMatches r.PULocationID z.LocationID)).map
      (fun z => setPU r z.Zone z.Borough)

/-- The rows produced for one left row by the left join on `DOLocationID`. -/
def rowsDO (zones : List ZoneRow) (r : Row) : List Row :=
  if (zones.filter (fun z => keyMatches r.DOLocationID z.LocationID)).isEmpty then
    [setDO r none none]
  else
    (zones.filter (fun z => keyMatches r.DOLocationID z.LocationID)).map
      (fun z => setDO r z.Zone z.Borough)

/-- `df.join(zones_pu, on=\x22PULocationID\x22, how=\x22left\x22)`. -/
def joinPU (zones : List ZoneRow) (df : List Row) : List Row :=
  df.flatMap (rowsPU zones)

/-- `df.join(zones_do, on=\x22DOLocationID\x22, how=\x22left\x22)`. -/
def joinDO (zones : List ZoneRow) (df : List Row) : List Row :=
  df.flatMap (rowsDO zones)

/-- The payment-label step: `payment_type.cast(Int64).map_elements(lambda x:
PAYMENT_MAP.get(x, \x22Unknown\x22))`.  Polars `map_elements` skips nulls
(default `skip_nulls=True`), so a null code yields a null label. -/
def paymentStep (r : Row) : Row :=
  { r with
    payment_label := r.payment_type.map (fun c => (PAYMENT_MAP.lookup c).getD "Unknown") }

/-- The whole `load_data` pipeline on in-memory inputs: clean, derive
features and speed, left-join the zone lookup twice, then label payments. -/
def load_data (trips : List Row) (zones : List ZoneRow) : List Row :=
  (joinDO zones (joinPU zones (featured trips))).map paymentStep

/-! Sidebar filter layer (lines 127-154 of `app.py`), modelled over the unified
table.  Dates are epoch days; pandas comparisons and `isin` on a missing value
are false. -/

/-- Pandas `dt.normalize().dt.date` of the pickup timestamp, as an epoch day. -/
def dateOfPickup (r : Row) : Option Int :=
  r.tpep_pickup_datetime.map epochDayOfMicros

/-- Pandas `series >= lit` on a nullable column: a missing value compares false. -/
def optGeIB (a : Option Int) (c : Int) : Bool :=
  match a with
  | some v => decide (c ≤ v)
  | none => false

/-- Pandas `series <= lit` on a nullable column: a missing value compares false. -/
def optLeIB (a : Option Int) (c : Int) : Bool :=
  match a with
  | some v => decide (v ≤ c)
  | none => false

/-- Pandas `series.isin(labels)` on the payment label: a missing label is in
no selection. -/
def isinLabel (r : Row) (labels : List String) : Bool :=
  match r.payment_label with
  | some s => labels.contains s
  | none => false

/-- Insert a string into a sorted list (helper for the Python `sorted` call). -/
def insertSorted (s : String) : List String → List String
  | [] => [s]
  | t :: ts => if s ≤ t then s :: t :: ts else t :: insertSorted s ts

/-- Python `sorted` on strings, as insertion sort. -/
def sortStrings : List String → List String
  | [] => []
  | s :: ss => insertSorted s (sortStrings ss)

/-- `sorted(df_full[\x22payment_label\x22].dropna().unique().tolist())`
(line 127 of `app.py`). -/
def all_payment_types (df : List Row) : List String :=
  sortStrings ((df.filterMap (fun r => r.payment_label)).eraseDups)

/-- The boolean mask of lines 142-148 of `app.py`, for one row: date window,
hour window, and payment-label membership, with the Python fallback
`selected_payments if selected_payments else all_payment_types`. -/
def maskRow (r : Row) (startDate endDate h1 h2 : Int) (labels : List String) : Bool :=
  optGeIB (dateOfPickup r) startDate && optLeIB (dateOfPickup r) endDate &&
    optGeIB r.pickup_hour h1 && optLeIB r.pickup_hour h2 && isinLabel r labels

/-- `df = df_full[mask]` (line 149 of `app.py`), with the empty-selection
fallback of line 147 applied to the payment selection. -/
def filterStep (df : List Row) (startDate endDate h1 h2 : Int) (sel : List String) : List Row :=
  df.filter (fun r =>
    maskRow r startDate endDate h1 h2 (if sel.isEmpty then all_payment_types df else sel))

/-! Render cycle (lines 151-320 of `app.py`), modelled as the list of UI
events the script emits for one run: `st.stop()` after the empty-state
warning means nothing after line 154 runs in that cycle. -/

/-- One user-visible output of the script body. -/
inductive UIEvent where
  | warning (msg : String)
  | info (msg : String)
  | headerBlock
  | metricBlock
  | chart (tab : String)
deriving DecidableEq, Repr

/-- The day-of-week × hour groupby keys present in a table (pandas `groupby`
drops null keys); the tab-5 guard checks this for emptiness. -/
def heatmapKeyed (df : List Row) : List Row :=
  df.filter (fun r => r.pickup_day_of_week.isSome && r.pickup_hour.isSome)

/-- The tab-5 block: render the heatmap, or an info notice when the grouped
data is empty (lines 297-320 of `app.py`). -/
def heatmapTab (df : List Row) : List UIEvent :=
  if (heatmapKeyed df).isEmpty then
    [UIEvent.info "Not enough data to display the heatmap for the current filters."]
  else
    [UIEvent.chart "weekday_hour_heatmap"]

/-- The script body after filtering (lines 151-320 of `app.py`): on an empty
filtered table, emit the warning and stop; otherwise render the header, the
KPI metrics and the five chart tabs. -/
def renderCycle (df : List Row) : List UIEvent :=
  if df.isEmpty then
    [UIEvent.warning "No trips match the current filters. Please adjust your sidebar selections."]
  else
    [UIEvent.headerBlock, UIEvent.metricBlock,
      UIEvent.chart "top_pickup_zones", UIEvent.chart "avg_fare_by_hour",
      UIEvent.chart "trip_distance_hist", UIEvent.chart "payment_type_pie"] ++
      heatmapTab df

/-- `df[df[\x22trip_distance\x22] <= 30][\x22trip_distance\x22]` (line 245 of
`app.py`), a derived series read from the filtered table. -/
def dist_clipped (df : List Row) : List ℚ :=
  (df.filter (fun r =>
    match r.trip_distance with
    | some x => decide (x ≤ 30)
    | none => false)).filterMap (fun r => r.trip_distance)

/-- The module-level tables of the script: the memoized base table `df_full`
and the filtered view `df`. -/
structure ScriptState where
  df_full : List Row
  df : List Row
deriving DecidableEq, Repr

/-- Lines 142-149 of `app.py`: build the mask from `df_full` and bind the
filtered copy to `df`; `df_full` is only read. -/
def applyFilters (s : ScriptState) (startDate endDate h1 h2 : Int) (sel : List String) : ScriptState :=
  { s with df := filterStep s.df_full startDate endDate h1 h2 sel }

/-- One full render cycle over the script state: filter, then render from the
filtered view (all chart aggregations, including `dist_clipped`, are reads of
`df`); returns the final state and the emitted events. -/
def runCycle (s : ScriptState) (startDate endDate h1 h2 : Int) (sel : List String) :
    ScriptState × List UIEvent :=
  let s2 := applyFilters s startDate endDate h1 h2 sel
  (s2, renderCycle s2.df)

/-! Fetcher (`_download_if_missing`, lines 33-41 of `app.py`), modelled over an
explicit file store and a transport function returning the chunk stream of
`iter_content` (or a transport error, for `raise_for_status`). -/

/-- A file store: path to contents. -/
structure FileStore where
  files : List (String × String)
deriving DecidableEq, Repr

/-- `os.path.exists`. -/
def FileStore.existsPath (fs : FileStore) (p : String) : Bool :=
  (fs.files.lookup p).isSome

/-- Write a file: the chunk stream is concatenated into the file body. -/
def FileStore.writeChunks (fs : FileStore) (p : String) (chunks : List String) : FileStore :=
  { files := (p, String.join chunks) :: fs.files }

/-- The observable fetch state: the file store and how many times the network
transport has been invoked. -/
structure FetchState where
  fs : FileStore
  transportCalls : Nat
deriving DecidableEq, Repr

/-- `_download_if_missing(url, path)`: when the destination exists, do nothing;
otherwise invoke the transport once and stream the body to the file.  A
transport error propagates (`raise_for_status`). -/
def _download_if_missing (transport : String → Except String (List String))
    (url path : String) (s : FetchState) : Except String FetchState :=
  if s.fs.existsPath path then
    Except.ok s
  else
    match transport url with
    | Except.error e => Except.error e
    | Except.ok chunks =>
        Except.ok { fs := s.fs.writeChunks path chunks, transportCalls := s.transportCalls + 1 }

/-! Specification predicates over rows, and concrete rows used by the
scenario theorems and witnesses. -/

/-- A nullable rational that is present and positive. -/
def PosQ : Option ℚ → Prop
  | some x => 0 < x
  | none => False

/-- A nullable rational that is present and nonnegative. -/
def NonnegQ : Option ℚ → Prop
  | some x => 0 ≤ x
  | none => False

/-- A nullable fare that is present and within the admitted band. -/
def FareOk : Option ℚ → Prop
  | some f => 0 < f ∧ f ≤ 500
  | none => False

/-- Two nullable instants that are present and strictly ordered. -/
def TimeOrdered : Option Int → Option Int → Prop
  | some p, some d => p < d
  | _, _ => False

/-- The four admission invariants of the spec, plus presence of the five
critical columns. -/
def Admissible (r : Row) : Prop :=
  TimeOrdered r.tpep_pickup_datetime r.tpep_dropoff_datetime ∧
    PosQ r.trip_distance ∧ FareOk r.fare_amount ∧
    r.PULocationID.isSome = true ∧ r.DOLocationID.isSome = true

/-- Equality of the raw columns the admission invariants read. -/
def RawEq (a b : Row) : Prop :=
  a.tpep_pickup_datetime = b.tpep_pickup_datetime ∧
    a.tpep_dropoff_datetime = b.tpep_dropoff_datetime ∧
    a.PULocationID = b.PULocationID ∧ a.DOLocationID = b.DOLocationID ∧
    a.fare_amount = b.fare_amount ∧ a.trip_distance = b.trip_distance

/-- Equality of every column except the four join-derived zone columns and
the payment label: the identity of a trip across the enrichment steps. -/
def SameTrip (a b : Row) : Prop :=
  a.tpep_pickup_datetime = b.tpep_pickup_datetime ∧
    a.tpep_dropoff_datetime = b.tpep_dropoff_datetime ∧
    a.PULocationID = b.PULocationID ∧ a.DOLocationID = b.DOLocationID ∧
    a.fare_amount = b.fare_amount ∧ a.trip_distance = b.trip_distance ∧
    a.total_amount = b.total_amount ∧ a.payment_type = b.payment_type ∧
    a.trip_duration_minutes = b.trip_duration_minutes ∧
    a.pickup_hour = b.pickup_hour ∧ a.pickup_day_of_week = b.pickup_day_of_week ∧
    a.trip_speed_mph = b.trip_speed_mph

/-- Scenario row A: `fare_amount = 0`, otherwise valid (2024-01-05 04:00 to
04:15, in epoch microseconds). -/
def rowA : Row :=
  { tpep_pickup_datetime := some 1704427200000000
    tpep_dropoff_datetime := some 1704428100000000
    PULocationID := some 1, DOLocationID := some 2
    fare_amount := some 0, trip_distance := some 3
    total_amount := some 5, payment_type := some 1 }

/-- Scenario row B: `dropoff <= pickup` (equal timestamps), otherwise valid. -/
def rowB : Row :=
  { tpep_pickup_datetime := some 1704427200000000
    tpep_dropoff_datetime := some 1704427200000000
    PULocationID := some 1, DOLocationID := some 2
    fare_amount := some 10, trip_distance := some 3
    total_amount := some 12, payment_type := some 2 }

/-- Scenario row C: fully valid, pickup 2024-01-05T04:00:00, dropoff
2024-01-05T04:15:00, trip_distance 2.5. -/
def rowC : Row :=
  { tpep_pickup_datetime := some 1704427200000000
    tpep_dropoff_datetime := some 1704428100000000
    PULocationID := some 1, DOLocationID := some 2
    fare_amount := some 10, trip_distance := some (5 / 2)
    total_amount := some 12, payment_type := some 1 }

/-- A two-row zone lookup covering the location ids of the scenario rows. -/
def zonesLookup : List ZoneRow :=
  [{ LocationID := some 1, Borough := some "Manhattan", Zone := some "Alphabet City",
     service_zone := some "Boro Zone" },
   { LocationID := some 2, Borough := some "Queens", Zone := some "Astoria",
     service_zone := some "Boro Zone" }]

/-- The unified-table row the scenario pipeline produces for row C. -/
def rowCout : Row :=
  { tpep_pickup_datetime := some 1704427200000000
    tpep_dropoff_datetime := some 1704428100000000
    PULocationID := some 1, DOLocationID := some 2
    fare_amount := some 10, trip_distance := some (5 / 2)
    total_amount := some 12, payment_type := some 1
    trip_duration_minutes := some 15
    pickup_hour := some 4
    pickup_day_of_week := some "Friday"
    trip_speed_mph := some 10
    pickup_zone := some "Alphabet City", pickup_borough := some "Manhattan"
    dropoff_zone := some "Astoria", dropoff_borough := some "Queens"
    payment_label := some "Credit Card" }

/-- A valid row with a missing payment code: admitted by every filter, its
label is decided by the `map_elements` null semantics. -/
def rowNullPay : Row :=
  { tpep_pickup_datetime := some 0
    tpep_dropoff_datetime := some 60000000
    PULocationID := some 7, DOLocationID := some 7
    fare_amount := some 20, trip_distance := some 3
    total_amount := some 20, payment_type := none }

/-- A fully valid half-second trip (pickup 0 μs, dropoff 500000 μs): admitted
by every filter, yet `total_seconds()` truncates its duration to 0 seconds. -/
def rowSub : Row :=
  { tpep_pickup_datetime := some 0
    tpep_dropoff_datetime := some 500000
    PULocationID := some 1, DOLocationID := some 2
    fare_amount := some 20, trip_distance := some 3
    total_amount := some 20, payment_type := some 1 }

/-- A valid row used by the witness theorems: pickup at the epoch, a one
minute trip of three miles. -/
def rowW : Row :=
  { tpep_pickup_datetime := some 0
    tpep_dropoff_datetime := some 60000000
    PULocationID := some 7, DOLocationID := some 8
    fare_amount := some 20, trip_distance := some 3
    total_amount := some 20, payment_type := some 1 }

/-- The unified-table row the pipeline produces for `rowW` under an empty
zone lookup. -/
def rowWout : Row :=
  { tpep_pickup_datetime := some 0
    tpep_dropoff_datetime := some 60000000
    PULocationID := some 7, DOLocationID := some 8
    fare_amount := some 20, trip_distance := some 3
    total_amount := some 20, payment_type := some 1
    trip_duration_minutes := some 1
    pickup_hour := some 0
    pickup_day_of_week := some "Thursday"
    trip_speed_mph := some 180
    payment_label := some "Credit Card" }

/-- A bare row with a zero trip duration, exercising the speed guard. -/
def rowDur0 : Row :=
  { trip_duration_minutes := some 0 }

/-- A bare row with a one-hour duration and a five-mile distance. -/
def rowDur60 : Row :=
  { trip_duration_minutes := some 60, trip_distance := some 5 }

/-- A mock transport returning a fixed two-chunk body for every url. -/
def transport0 : String → Except String (List String) :=
  fun _ => Except.ok ["ab", "cd"]

/-- A fetch state with an empty file store and no transport calls. -/
def fetchS0 : FetchState :=
  { fs := { files := [] }, transportCalls := 0 }

/-- A fetch state whose store already holds the zone lookup file. -/
def fetchS1 : FetchState :=
  { fs := { files := [("data/raw/taxi_zone_lookup.csv", "xyz")] }, transportCalls := 0 }

/-! Helper lemmas about the cleaning stage. -/

lemma kleeneAnd_eq_some_true (a b : Option Bool) :
    kleeneAnd a b = some true ↔ a = some true ∧ b = some true := by
  revert a b
  decide

lemma optGtQ_eq_some_true {a : Option ℚ} {c : ℚ} (h : optGtQ a c = some true) :
    ∃ x, a = some x ∧ c < x := by
  cases a with
  | none => simp [optGtQ] at h
  | some x =>
      refine ⟨x, rfl, ?_⟩
      simpa [optGtQ] using h

lemma optLeQ_eq_some_true {a : Option ℚ} {c : ℚ} (h : optLeQ a c = some true) :
    ∃ x, a = some x ∧ x ≤ c := by
  cases a with
  | none => simp [optLeQ] at h
  | some x =>
      refine ⟨x, rfl, ?_⟩
      simpa [optLeQ] using h

lemma optGtI_eq_some_true {a b : Option Int} (h : optGtI a b = some true) :
    ∃ x y, a = some x ∧ b = some y ∧ y < x := by
  cases a with
  | none => simp [optGtI] at h
  | some x =>
      cases b with
      | none => simp [optGtI] at h
      | some y =>
          refine ⟨x, y, rfl, rfl, ?_⟩
          simpa [optGtI] using h

lemma mem_cleaned {trips : List Row} {r : Row} (h : r ∈ cleaned trips) :
    r ∈ trips ∧ hasCriticalCols r = true ∧ keepRow r = true := by
  unfold cleaned at h
  obtain ⟨h1, hkeep⟩ := List.mem_filter.mp h
  obtain ⟨h0, hcrit⟩ := List.mem_filter.mp h1
  exact ⟨h0, hcrit, hkeep⟩

lemma admissible_of_mem_cleaned {trips : List Row} {r : Row} (h : r ∈ cleaned trips) :
    Admissible r := by
  obtain ⟨-, hcrit, hkeep⟩ := mem_cleaned h
  have hadm : admissionPred r = some true := by
    simpa [keepRow] using hkeep
  unfold admissionPred at hadm
  rw [kleeneAnd_eq_some_true] at hadm
  obtain ⟨h123, h4⟩ := hadm
  rw [kleeneAnd_eq_some_true] at h123
  obtain ⟨h12, h3⟩ := h123
  rw [kleeneAnd_eq_some_true] at h12
  obtain ⟨h1, h2⟩ := h12
  obtain ⟨x, hx, hxpos⟩ := optGtQ_eq_some_true h1
  obtain ⟨f, hf, hfpos⟩ := optGtQ_eq_some_true h2
  obtain ⟨f2, hf2, hfle⟩ := optLeQ_eq_some_true h3
  obtain ⟨d, p, hd, hp, hpd⟩ := optGtI_eq_some_true h4
  have hff : f2 = f := by
    rw [hf] at hf2
    exact (Option.some.inj hf2).symm
  simp only [hasCriticalCols, Bool.and_eq_true] at hcrit
  obtain ⟨⟨⟨⟨-, -⟩, hpuS⟩, hdoS⟩, -⟩ := hcrit
  refine ⟨?_, ?_, ?_, hpuS, hdoS⟩
  · rw [hp, hd]
    exact hpd
  · rw [hx]
    exact hxpos
  · rw [hf]
    exact ⟨hfpos, hff ▸ hfle⟩

lemma admissible_rawEq {r q : Row} (hre : RawEq r q) (h : Admissible r) : Admissible q := by
  obtain ⟨e1, e2, e3, e4, e5, e6⟩ := hre
  obtain ⟨a1, a2, a3, a4, a5⟩ := h
  exact ⟨e1 ▸ e2 ▸ a1, e6 ▸ a2, e5 ▸ a3, e3 ▸ a4, e4 ▸ a5⟩

/-! Helper lemmas about the join stage and the shape of unified rows. -/

lemma mem_rowsPU {zones : List ZoneRow} {a r : Row} (h : r ∈ rowsPU zones a) :
    ∃ pz pb, r = setPU a pz pb := by
  unfold rowsPU at h
  split at h
  · exact ⟨none, none, (List.mem_singleton.mp h)⟩
  · obtain ⟨z, -, hz⟩ := List.mem_map.mp h
    exact ⟨z.Zone, z.Borough, hz.symm⟩

lemma mem_rowsDO {zones : List ZoneRow} {a r : Row} (h : r ∈ rowsDO zones a) :
    ∃ dz db, r = setDO a dz db := by
  unfold rowsDO at h
  split at h
  · exact ⟨none, none, (List.mem_singleton.mp h)⟩
  · obtain ⟨z, -, hz⟩ := List.mem_map.mp h
    exact ⟨z.Zone, z.Borough, hz.symm⟩

lemma exists_mem_rowsPU (zones : List ZoneRow) (a : Row) :
    ∃ pz pb, setPU a pz pb ∈ rowsPU zones a := by
  unfold rowsPU
  split
  · exact ⟨none, none, List.mem_singleton.mpr rfl⟩
  · rename_i hne
    have hx : ∃ z ∈ zones, keyMatches a.PULocationID z.LocationID = true := by
      simpa using hne
    obtain ⟨z, hz, hk⟩ := hx
    exact ⟨z.Zone, z.Borough, List.mem_map.mpr ⟨z, List.mem_filter.mpr ⟨hz, hk⟩, rfl⟩⟩

lemma exists_mem_rowsDO (zones : List ZoneRow) (a : Row) :
    ∃ dz db, setDO a dz db ∈ rowsDO zones a := by
  unfold rowsDO
  split
  · exact ⟨none, none, List.mem_singleton.mpr rfl⟩
  · rename_i hne
    have hx : ∃ z ∈ zones, keyMatches a.DOLocationID z.LocationID = true := by
      simpa using hne
    obtain ⟨z, hz, hk⟩ := hx
    exact ⟨z.Zone, z.Borough, List.mem_map.mpr ⟨z, List.mem_filter.mpr ⟨hz, hk⟩, rfl⟩⟩

lemma rowsPU_of_no_match {zones : List ZoneRow} {a : Row}
    (h : ∀ z ∈ zones, keyMatches a.PULocationID z.LocationID = false) :
    rowsPU zones a = [setPU a none none] := by
  unfold rowsPU
  have hnil : zones.filter (fun z => keyMatches a.PULocationID z.LocationID) = [] := by
    simp only [List.filter_eq_nil_iff]
    intro z hz
    simp [h z hz]
  simp [hnil]

lemma rowsDO_of_no_match {zones : List ZoneRow} {a : Row}
    (h : ∀ z ∈ zones, keyMatches a.DOLocationID z.LocationID = false) :
    rowsDO zones a = [setDO a none none] := by
  unfold rowsDO
  have hnil : zones.filter (fun z => keyMatches a.DOLocationID z.LocationID) = [] := by
    simp only [List.filter_eq_nil_iff]
    intro z hz
    simp [h z hz]
  simp [hnil]

lemma load_data_shape {trips : List Row} {zones : List ZoneRow} {r : Row}
    (h : r ∈ load_data trips zones) :
    ∃ r0 pz pb dz db, r0 ∈ cleaned trips ∧
      r = paymentStep (setDO (setPU (speedStep (featureStep r0)) pz pb) dz db) := by
  unfold load_data joinDO joinPU featured at h
  obtain ⟨b, hb, hrb⟩ := List.mem_map.mp h
  obtain ⟨a, ha, hbDO⟩ := List.mem_flatMap.mp hb
  obtain ⟨s, hs, haPU⟩ := List.mem_flatMap.mp ha
  obtain ⟨r0, hr0, hsr0⟩ := List.mem_map.mp hs
  obtain ⟨pz, pb, hpa⟩ := mem_rowsPU haPU
  obtain ⟨dz, db, hdb⟩ := mem_rowsDO hbDO
  refine ⟨r0, pz, pb, dz, db, hr0, ?_⟩
  rw [hrb.symm, hdb, hpa, hsr0]

lemma mem_load_data_of_featured {trips : List Row} (zones : List ZoneRow) {s : Row}
    (hs : s ∈ featured trips) :
    ∀ pz pb, setPU s pz pb ∈ rowsPU zones s →
      ∀ dz db, setDO (setPU s pz pb) dz db ∈ rowsDO zones (setPU s pz pb) →
        paymentStep (setDO (setPU s pz pb) dz db) ∈ load_data trips zones := by
  intro pz pb hpu dz db hdo
  unfold load_data joinDO joinPU
  exact List.mem_map.mpr
    ⟨setDO (setPU s pz pb) dz db,
      List.mem_flatMap.mpr ⟨setPU s pz pb, List.mem_flatMap.mpr ⟨s, hs, hpu⟩, hdo⟩, rfl⟩

/-! Evaluation lemmas for the concrete instants used by the scenarios. -/

lemma hourOfMicros_scenario : hourOfMicros 1704427200000000 = 4 := by decide

lemma weekdayName_scenario : weekdayName 1704427200000000 = "Friday" := by decide

lemma hourOfMicros_epoch : hourOfMicros 0 = 0 := by decide

lemma weekdayName_epoch : weekdayName 0 = "Thursday" := by decide

lemma tdiv_micros_900s : (900000000 : Int).tdiv 1000000 = 900 := by decide

lemma tdiv_micros_60s : (60000000 : Int).tdiv 1000000 = 60 := by decide

lemma tdiv_micros_half : (500000 : Int).tdiv 1000000 = 0 := by decide

/-- C4: filtering with an empty payment selection returns exactly the rows
that filtering with every payment type selected returns, for every table and
every date and hour interval. -/
theorem empty_selection_filters_like_all (df : List Row) (startDate endDate h1 h2 : Int) :
    filterStep df startDate endDate h1 h2 [] =
      filterStep df startDate endDate h1 h2 (all_payment_types df) := by
  unfold filterStep
  simp only [List.isEmpty_nil, if_true, ite_self]

/-- C6: the speed derivation yields an absent value on a zero duration, and
the quotient `trip_distance / (trip_duration_minutes / 60)` on a positive
duration. -/
theorem speed_guard_zero_duration (r : Row) :
    (r.trip_duration_minutes = some 0 → (speedStep r).trip_speed_mph = none) ∧
    (∀ q : ℚ, r.trip_duration_minutes = some q → 0 < q →
      (speedStep r).trip_speed_mph = r.trip_distance.map (fun d => d / (q / 60))) := by
  constructor
  · intro h
    have hdec : decide ((0:ℚ) < 0) = false := by norm_num
    simp [speedStep, h, optGtQ, hdec, plWhen]
  · intro q h hq
    have hdec : decide ((0:ℚ) < q) = true := decide_eq_true hq
    simp only [speedStep, h, optGtQ, Option.map_some, hdec, plWhen]
    cases hd : r.trip_distance <;> simp [optDivQ, hd, hdec, plWhen]

/-- Witness for C6: a zero-duration row gets an absent speed, and a one-hour
five-mile row gets the quotient. -/
theorem speed_guard_zero_duration_witness :
    (speedStep rowDur0).trip_speed_mph = none ∧
    (speedStep rowDur60).trip_speed_mph = rowDur60.trip_distance.map (fun d => d / (60 / 60)) :=
  ⟨(speed_guard_zero_duration rowDur0).1 rfl,
    (speed_guard_zero_duration rowDur60).2 60 rfl (by norm_num)⟩

/-- C7: when the destination file exists the fetcher returns the state
unchanged (no transport invocation); when it does not and the transport
succeeds, the destination afterwards holds the whole concatenated body and
exactly one transport invocation happened. -/
theorem download_if_missing_idempotent
    (transport : String → Except String (List String)) (url path : String) (s : FetchState) :
    (s.fs.existsPath path = true → _download_if_missing transport url path s = Except.ok s) ∧
    (s.fs.existsPath path = false → ∀ chunks, transport url = Except.ok chunks →
      _download_if_missing transport url path s =
        Except.ok { fs := s.fs.writeChunks path chunks, transportCalls := s.transportCalls + 1 } ∧
      (s.fs.writeChunks path chunks).files.lookup path = some (String.join chunks)) := by
  constructor
  · intro h
    simp [_download_if_missing, h]
  · intro h chunks hc
    constructor
    · simp [_download_if_missing, h, hc]
    · simp [FileStore.writeChunks, List.lookup]

/-- Witness for C7: with a two-chunk mock transport, the fetcher leaves an
existing file alone and writes the full body to a missing one. -/
theorem download_if_missing_idempotent_witness :
    _download_if_missing transport0 "u" "data/raw/taxi_zone_lookup.csv" fetchS1 =
      Except.ok fetchS1 ∧
    _download_if_missing transport0 "u" "data/raw/trips.parquet" fetchS0 =
      Except.ok { fs := fetchS0.fs.writeChunks "data/raw/trips.parquet" ["ab", "cd"],
                  transportCalls := fetchS0.transportCalls + 1 } ∧
    (fetchS0.fs.writeChunks "data/raw/trips.parquet" ["ab", "cd"]).files.lookup
        "data/raw/trips.parquet" = some (String.join ["ab", "cd"]) := by
  refine ⟨?_, ?_⟩
  · exact (download_if_missing_idempotent transport0 "u" "data/raw/taxi_zone_lookup.csv"
      fetchS1).1 (by decide)
  · exact (download_if_missing_idempotent transport0 "u" "data/raw/trips.parquet"
      fetchS0).2 (by decide) ["ab", "cd"] rfl

/-- C8: when the filtered table is empty, the render cycle emits exactly the
empty-state warning and renders no chart (the cycle halts after the notice
and the script does not fail). -/
theorem empty_filter_notice_and_halt (df : List Row) (startDate endDate h1 h2 : Int)
    (sel : List String) (h : filterStep df startDate endDate h1 h2 sel = []) :
    renderCycle (filterStep df startDate endDate h1 h2 sel) =
      [UIEvent.warning
        "No trips match the current filters. Please adjust your sidebar selections."] ∧
    ∀ ev ∈ renderCycle (filterStep df startDate endDate h1 h2 sel),
      ∀ t, ev ≠ UIEvent.chart t := by
  rw [h]
  constructor
  · simp [renderCycle]
  · intro ev hev t
    simp only [renderCycle, List.isEmpty_nil, if_true, List.mem_singleton] at hev
    subst hev
    simp

/-- Witness for C8: the empty table filters to empty and the cycle emits the
warning alone. -/
theorem empty_filter_notice_and_halt_witness :
    renderCycle (filterStep [] 0 0 0 0 []) =
      [UIEvent.warning
        "No trips match the current filters. Please adjust your sidebar selections."] :=
  (empty_filter_notice_and_halt [] 0 0 0 0 [] rfl).1

/-- C9: one render cycle never mutates the unified base table: the filter
step writes only the derived view, and rendering only reads it. -/
theorem filters_preserve_base_table (s : ScriptState) (startDate endDate h1 h2 : Int)
    (sel : List String) :
    (applyFilters s startDate endDate h1 h2 sel).df_full = s.df_full ∧
    (runCycle s startDate endDate h1 h2 sel).1.df_full = s.df_full :=
  ⟨rfl, rfl⟩

/-- C1: every row of the unified table satisfies the four admission
invariants with all five critical columns present, and an input row violating
one of them never reaches the unified table (no output row carries its raw
columns). -/
theorem load_data_row_invariants (trips : List Row) (zones : List ZoneRow) :
    (∀ r ∈ load_data trips zones, Admissible r) ∧
    (∀ q : Row, ¬ Admissible q → ∀ r ∈ load_data trips zones, ¬ RawEq r q) := by
  have hadm : ∀ r ∈ load_data trips zones, Admissible r := by
    intro r hr
    obtain ⟨r0, pz, pb, dz, db, hr0, rfl⟩ := load_data_shape hr
    have h0 := admissible_of_mem_cleaned hr0
    exact admissible_rawEq ⟨rfl, rfl, rfl, rfl, rfl, rfl⟩ h0
  refine ⟨hadm, ?_⟩
  intro q hq r hr hre
  exact hq (admissible_rawEq hre (hadm r hr))

/-- Witness for C1: the unified row of a valid one-row input is admissible,
and the zero-fare row A shares its raw columns with no unified row. -/
theorem load_data_row_invariants_witness :
    Admissible rowWout ∧ ¬ RawEq rowWout rowA := by
  have hmem : rowWout ∈ load_data [rowW] [] := by
    norm_num [load_data, featured, cleaned, hasCriticalCols, keepRow, admissionPred,
      optGtQ, optLeQ, optGtI, kleeneAnd, featureStep, durationMinutes,
      hourOfMicros_epoch, weekdayName_epoch, tdiv_micros_60s, speedStep, plWhen, optDivQ, joinPU,
      joinDO, rowsPU, rowsDO, setPU, setDO, paymentStep, PAYMENT_MAP, keyMatches,
      rowW, rowWout, List.lookup]
  have hnot : ¬ Admissible rowA := by
    norm_num [Admissible, rowA, FareOk, PosQ, TimeOrdered]
  exact ⟨(load_data_row_invariants [rowW] []).1 rowWout hmem,
    (load_data_row_invariants [rowW] []).2 rowA hnot rowWout hmem⟩

/-- Counterexample for C10 as stated: a fully valid half-second trip is
admitted (its raw timestamps are strictly ordered), yet `total_seconds()`
truncates its duration to 0 whole seconds, so its unified row has
`trip_duration_minutes = 0` and an absent `trip_speed_mph`. -/
theorem sub_second_trip_zero_duration_counterexample :
    (load_data [rowSub] []).map (fun r => (r.trip_duration_minutes, r.trip_speed_mph)) =
      [(some 0, none)] := by
  norm_num [load_data, featured, cleaned, hasCriticalCols, keepRow, admissionPred,
    optGtQ, optLeQ, optGtI, kleeneAnd, featureStep, durationMinutes,
    hourOfMicros_epoch, weekdayName_epoch, tdiv_micros_half, speedStep, plWhen,
    optDivQ, joinPU, joinDO, rowsPU, rowsDO, setPU, setDO, paymentStep,
    PAYMENT_MAP, keyMatches, rowSub, List.lookup]

/-- C10 (amended): every row of the unified table has a present, nonnegative
`trip_duration_minutes`, and every row whose duration is positive has a
present `trip_speed_mph`; because `total_seconds()` truncates to whole
seconds, an admitted sub-second trip has duration zero and the absent-speed
branch of the guard is reachable. -/
theorem unified_rows_duration_nonneg_speed_guard (trips : List Row) (zones : List ZoneRow) :
    ∀ r ∈ load_data trips zones,
      NonnegQ r.trip_duration_minutes ∧
      (PosQ r.trip_duration_minutes → r.trip_speed_mph.isSome = true) := by
  intro r hr
  obtain ⟨r0, pz, pb, dz, db, hr0, rfl⟩ := load_data_shape hr
  obtain ⟨hto, hdist, -, -, -⟩ := admissible_of_mem_cleaned hr0
  rcases hp : r0.tpep_pickup_datetime with - | p
  · rw [hp] at hto
    simp [TimeOrdered] at hto
  rcases hd : r0.tpep_dropoff_datetime with - | d
  · rw [hp, hd] at hto
    simp [TimeOrdered] at hto
  rw [hp, hd] at hto
  have hpd : p < d := by simpa [TimeOrdered] using hto
  have htd : (0:Int) ≤ (d - p).tdiv 1000000 := Int.tdiv_nonneg (by omega) (by norm_num)
  rcases hx : r0.trip_distance with - | x
  · rw [hx] at hdist
    simp [PosQ] at hdist
  constructor
  · show NonnegQ (durationMinutes r0.tpep_pickup_datetime r0.tpep_dropoff_datetime)
    rw [hp, hd]
    simp only [durationMinutes, NonnegQ]
    have hcast : (0:ℚ) ≤ (((d - p).tdiv 1000000 : Int) : ℚ) := by exact_mod_cast htd
    positivity
  · intro hpos
    have hpos2 : PosQ (durationMinutes r0.tpep_pickup_datetime r0.tpep_dropoff_datetime) := hpos
    rw [hp, hd] at hpos2
    simp only [durationMinutes, PosQ] at hpos2
    have htQ : (0:ℚ) < (((d - p).tdiv 1000000 : Int) : ℚ) := by linarith
    have hqI : (0:Int) < (d - p).tdiv 1000000 := by exact_mod_cast htQ
    show (plWhen (optGtQ (durationMinutes r0.tpep_pickup_datetime r0.tpep_dropoff_datetime) 0)
      (optDivQ r0.trip_distance
        ((durationMinutes r0.tpep_pickup_datetime r0.tpep_dropoff_datetime).map
          (fun q => q / 60)))
      none).isSome = true
    rw [hp, hd, hx]
    simp [durationMinutes, optGtQ, decide_eq_true hpos2, decide_eq_true htQ,
      decide_eq_true hqI, plWhen, optDivQ]

/-- Witness for C10 (amended): the unified row of the one-minute witness trip
has a nonnegative (indeed positive) duration and a present speed. -/
theorem unified_rows_duration_nonneg_speed_guard_witness :
    NonnegQ rowWout.trip_duration_minutes ∧ rowWout.trip_speed_mph.isSome = true := by
  have hmem : rowWout ∈ load_data [rowW] [] := by
    norm_num [load_data, featured, cleaned, hasCriticalCols, keepRow, admissionPred,
      optGtQ, optLeQ, optGtI, kleeneAnd, featureStep, durationMinutes,
      hourOfMicros_epoch, weekdayName_epoch, tdiv_micros_60s, speedStep, plWhen, optDivQ, joinPU,
      joinDO, rowsPU, rowsDO, setPU, setDO, paymentStep, PAYMENT_MAP, keyMatches,
      rowW, rowWout, List.lookup]
  exact ⟨(unified_rows_duration_nonneg_speed_guard [rowW] [] rowWout hmem).1,
    (unified_rows_duration_nonneg_speed_guard [rowW] [] rowWout hmem).2
      (by norm_num [rowWout, PosQ])⟩

lemma lookup_PAYMENT_MAP_eq_none {c : Int} (h1 : c ≠ 1) (h2 : c ≠ 2) (h3 : c ≠ 3)
    (h4 : c ≠ 4) (h5 : c ≠ 5) : PAYMENT_MAP.lookup c = none := by
  simp [PAYMENT_MAP, List.lookup, beq_eq_false_iff_ne.mpr h1, beq_eq_false_iff_ne.mpr h2,
    beq_eq_false_iff_ne.mpr h3, beq_eq_false_iff_ne.mpr h4, beq_eq_false_iff_ne.mpr h5]

/-- C2 (amended): on the unified table, codes 1-5 map through the fixed
enumeration and any other present code maps to the literal label
"Unknown", but a missing code yields an absent label, not "Unknown". -/
theorem payment_label_mapping (trips : List Row) (zones : List ZoneRow) :
    ∀ r ∈ load_data trips zones,
      (r.payment_type = none → r.payment_label = none) ∧
      (∀ c : Int, r.payment_type = some c →
        ((c = 1 → r.payment_label = some "Credit Card") ∧
         (c = 2 → r.payment_label = some "Cash") ∧
         (c = 3 → r.payment_label = some "No Charge") ∧
         (c = 4 → r.payment_label = some "Dispute") ∧
         (c = 5 → r.payment_label = some "Unknown") ∧
         (c ∉ ([1, 2, 3, 4, 5] : List Int) → r.payment_label = some "Unknown"))) := by
  intro r hr
  obtain ⟨r0, pz, pb, dz, db, hr0, rfl⟩ := load_data_shape hr
  have hlab : (paymentStep (setDO (setPU (speedStep (featureStep r0)) pz pb) dz db)).payment_label
      = r0.payment_type.map (fun c => (PAYMENT_MAP.lookup c).getD "Unknown") := rfl
  have hpt : (paymentStep (setDO (setPU (speedStep (featureStep r0)) pz pb) dz db)).payment_type
      = r0.payment_type := rfl
  rw [hlab, hpt]
  constructor
  · intro h
    rw [h]
    rfl
  · intro c hc
    rw [hc]
    refine ⟨?_, ?_, ?_, ?_, ?_, ?_⟩ <;> intro hcv
    · subst hcv; rfl
    · subst hcv; rfl
    · subst hcv; rfl
    · subst hcv; rfl
    · subst hcv; rfl
    · simp only [List.mem_cons, List.not_mem_nil, or_false, not_or] at hcv
      obtain ⟨h1, h2, h3, h4, h5⟩ := hcv
      simp [lookup_PAYMENT_MAP_eq_none h1 h2 h3 h4 h5]

/-- Counterexample for C2 as stated: a fully valid trip with a missing
payment code reaches the unified table with an absent payment label, not the
literal label "Unknown". -/
theorem payment_label_missing_code_counterexample :
    (load_data [rowNullPay] []).map (fun r => r.payment_label) = [none] ∧
    (none : Option String) ≠ some "Unknown" := by
  constructor
  · norm_num [load_data, featured, cleaned, hasCriticalCols, keepRow, admissionPred,
      optGtQ, optLeQ, optGtI, kleeneAnd, featureStep, durationMinutes,
      hourOfMicros_epoch, weekdayName_epoch, tdiv_micros_60s, speedStep, plWhen, optDivQ, joinPU,
      joinDO, rowsPU, rowsDO, setPU, setDO, paymentStep, PAYMENT_MAP, keyMatches,
      rowNullPay, List.lookup]
  · simp

/-- Witness for C2 (amended): the unified witness row carries code 1 and the
label "Credit Card". -/
theorem payment_label_mapping_witness : rowWout.payment_label = some "Credit Card" := by
  have hmem : rowWout ∈ load_data [rowW] [] := by
    norm_num [load_data, featured, cleaned, hasCriticalCols, keepRow, admissionPred,
      optGtQ, optLeQ, optGtI, kleeneAnd, featureStep, durationMinutes,
      hourOfMicros_epoch, weekdayName_epoch, tdiv_micros_60s, speedStep, plWhen, optDivQ, joinPU,
      joinDO, rowsPU, rowsDO, setPU, setDO, paymentStep, PAYMENT_MAP, keyMatches,
      rowW, rowWout, List.lookup]
  exact ((payment_label_mapping [rowW] [] rowWout hmem).2 1 rfl).1 rfl

/-- C5: both zone joins are left joins: every row of the table entering the
joins survives into the unified table with its trip columns unchanged, and a
row whose pickup (respectively dropoff) location id matches no zone row
appears with absent pickup (respectively dropoff) zone and borough columns. -/
theorem zone_join_left_total (trips : List Row) (zones : List ZoneRow) :
    ∀ s ∈ featured trips,
      (∃ r ∈ load_data trips zones, SameTrip r s) ∧
      ((∀ z ∈ zones, keyMatches s.PULocationID z.LocationID = false) →
        ∃ r ∈ load_data trips zones,
          SameTrip r s ∧ r.pickup_zone = none ∧ r.pickup_borough = none) ∧
      ((∀ z ∈ zones, keyMatches s.DOLocationID z.LocationID = false) →
        ∃ r ∈ load_data trips zones,
          SameTrip r s ∧ r.dropoff_zone = none ∧ r.dropoff_borough = none) := by
  intro s hs
  have build := mem_load_data_of_featured zones hs
  have hsame : ∀ pz pb dz db, SameTrip (paymentStep (setDO (setPU s pz pb) dz db)) s :=
    fun pz pb dz db => ⟨rfl, rfl, rfl, rfl, rfl, rfl, rfl, rfl, rfl, rfl, rfl, rfl⟩
  obtain ⟨pz, pb, hpu⟩ := exists_mem_rowsPU zones s
  obtain ⟨dz, db, hdo⟩ := exists_mem_rowsDO zones (setPU s pz pb)
  refine ⟨⟨paymentStep (setDO (setPU s pz pb) dz db),
    build pz pb hpu dz db hdo, hsame pz pb dz db⟩, ?_, ?_⟩
  · intro hnm
    have hpu0 : setPU s none none ∈ rowsPU zones s := by
      rw [rowsPU_of_no_match hnm]
      exact List.mem_singleton.mpr rfl
    obtain ⟨dz2, db2, hdo2⟩ := exists_mem_rowsDO zones (setPU s none none)
    exact ⟨paymentStep (setDO (setPU s none none) dz2 db2),
      build none none hpu0 dz2 db2 hdo2, hsame none none dz2 db2, rfl, rfl⟩
  · intro hnm
    have hnm2 : ∀ z ∈ zones, keyMatches (setPU s pz pb).DOLocationID z.LocationID = false := hnm
    have hdo0 : setDO (setPU s pz pb) none none ∈ rowsDO zones (setPU s pz pb) := by
      rw [rowsDO_of_no_match hnm2]
      exact List.mem_singleton.mpr rfl
    exact ⟨paymentStep (setDO (setPU s pz pb) none none),
      build pz pb hpu none none hdo0, hsame pz pb none none, rfl, rfl⟩

/-- Witness for C5: under an empty zone lookup no key matches, and the
witness trip survives both joins into the unified table with absent pickup
zone and borough. -/
theorem zone_join_left_total_witness :
    SameTrip rowWout (speedStep (featureStep rowW)) ∧
    rowWout.pickup_zone = none ∧ rowWout.pickup_borough = none := by
  have hs : speedStep (featureStep rowW) ∈ featured [rowW] := by
    have hclean : cleaned [rowW] = [rowW] := by
      norm_num [cleaned, hasCriticalCols, keepRow, admissionPred, optGtQ, optLeQ,
        optGtI, kleeneAnd, rowW]
    simp [featured, hclean]
  have heval : load_data [rowW] [] = [rowWout] := by
    norm_num [load_data, featured, cleaned, hasCriticalCols, keepRow, admissionPred,
      optGtQ, optLeQ, optGtI, kleeneAnd, featureStep, durationMinutes,
      hourOfMicros_epoch, weekdayName_epoch, tdiv_micros_60s, speedStep, plWhen, optDivQ, joinPU,
      joinDO, rowsPU, rowsDO, setPU, setDO, paymentStep, PAYMENT_MAP, keyMatches,
      rowW, rowWout, List.lookup]
  obtain ⟨r, hrmem, hsame, hz, hb⟩ :=
    (zone_join_left_total [rowW] [] (speedStep (featureStep rowW)) hs).2.1 (by simp)
  rw [heval, List.mem_singleton] at hrmem
  subst hrmem
  exact ⟨hsame, hz, hb⟩

/-- C3: on the 3-row raw input (row A with zero fare, row B with dropoff not
after pickup, row C fully valid at 2024-01-05 04:00 to 04:15 over 2.5 miles),
the pipeline returns exactly one unified row, with duration 15 minutes,
speed 10 mph, pickup hour 4 and weekday Friday. -/
theorem end_to_end_three_row_scenario :
    load_data [rowA, rowB, rowC] zonesLookup = [rowCout] ∧
    rowCout.trip_duration_minutes = some 15 ∧
    rowCout.trip_speed_mph = some 10 ∧
    rowCout.pickup_hour = some 4 ∧
    rowCout.pickup_day_of_week = some "Friday" := by
  refine ⟨?_, rfl, rfl, rfl, rfl⟩
  norm_num [load_data, featured, cleaned, hasCriticalCols, keepRow, admissionPred,
    optGtQ, optLeQ, optGtI, kleeneAnd, featureStep, durationMinutes,
    hourOfMicros_scenario, weekdayName_scenario, tdiv_micros_900s, speedStep, plWhen, optDivQ, joinPU,
    joinDO, rowsPU, rowsDO, setPU, setDO, paymentStep, PAYMENT_MAP, keyMatches,
    rowA, rowB, rowC, rowCout, zonesLookup, List.lookup]

end TaxiDashboard
